import Mathlib

/-!
Verification of the presentation layer of a Vulkan WSI interception layer.

The definitions below are shallow embeddings of:
  * src/util/custom_allocator.hpp — the allocation adapter (`util::allocator`,
    `util::custom_allocator`, `util::vector` try-helpers);
  * src/layer/layer.cpp — the instance/device creation and destruction entry
    points and `wsi_layer_vkGetDeviceProcAddr`;
  * src/wsi/wsi_factory.hpp — the capability-provider query (declaration only;
    its body, like the swapchain core, is modelled from the specification where
    noted).

C++ exceptions are embedded as `Except`, machine `size_t` arithmetic as `Nat`
with explicit reduction modulo `2 ^ 64`, side effects as explicit event lists,
and pointers/handles as `Nat`.
-/

/-- Kinds of C++ exception relevant to the allocator and the vector helpers:
std::bad_alloc, std::length_error, and any other exception type (the code
never inspects others beyond catching them). -/
inductive Exc where
  | badAlloc
  | lengthError
  | otherExc
deriving DecidableEq, Repr

/-- Model of the allocation callbacks stored in allocator::m_callbacks.
pfnAllocation(pUserData, size, alignment, scope) is modelled as a function of
the byte count only: it yields some pointer on success and none when the
C callback returns NULL. -/
structure AllocCallbacks where
  pfnAllocation : Nat → Option Nat

/-- Value of SIZE_MAX for the 64-bit size_t used by the layer. -/
def SIZE_MAX : Nat := 2 ^ 64 - 1

/-- Observable actions performed by the allocation adapter: an invocation of
pfnAllocation with a byte count, completed placement-new construction of the
object at an index, destructor call on the object at an index during unwind,
and pfnFree on a pointer. -/
inductive AllocEvent where
  | callAlloc (size : Nat)
  | construct (idx : Nat)
  | destruct (idx : Nat)
  | free (ptr : Nat)
deriving DecidableEq, Repr

/-- Embedding of custom_allocator&lt;T&gt;::allocate(n) (custom_allocator.hpp lines
145-158): size = n * sizeof(T) computed with size_t wraparound; if sizeof(T)
is non-zero and n &gt; SIZE_MAX / sizeof(T) it throws std::bad_alloc without
touching the callback; otherwise it invokes pfnAllocation with size and throws
std::bad_alloc exactly when the callback returned NULL.  The list records the
callback invocations that occurred. -/
def customAllocator.allocate (sizeofT : Nat) (cb : AllocCallbacks) (n : Nat) :
    Except Exc Nat × List AllocEvent :=
  let size := (n * sizeofT) % 2 ^ 64
  if sizeofT ≠ 0 ∧ SIZE_MAX / sizeofT < n then
    (Except.error Exc.badAlloc, [])
  else
    match cb.pfnAllocation size with
    | none => (Except.error Exc.badAlloc, [AllocEvent.callAlloc size])
    | some p => (Except.ok p, [AllocEvent.callAlloc size])

/-- Embedding of the construction loop of allocator::create
(custom_allocator.hpp lines 215-224): while objects_constructed &lt; num_objects,
placement-new the object at index objects_constructed; ctorOk i tells whether
the constructor of the i-th object completes or throws.  The argument
constructed is the current value of objects_constructed and the structural
argument is the number of iterations left (num_objects - objects_constructed).
Returns (whether the loop finished without a throw, the final value of
objects_constructed, the construct events performed). -/
def constructLoop (ctorOk : Nat → Bool) (constructed : Nat) :
    Nat → Bool × Nat × List AllocEvent
  | 0 => (true, constructed, [])
  | remaining + 1 =>
    if ctorOk constructed then
      let rest := constructLoop ctorOk (constructed + 1) remaining
      (rest.1, rest.2.1, AllocEvent.construct constructed :: rest.2.2)
    else
      (false, constructed, [])

/-- Embedding of the unwind loop of the catch block of allocator::create
(custom_allocator.hpp lines 230-234): while objects_constructed &gt; 0,
decrement and run the destructor, so objects k-1 down to 0 are destroyed in
reverse construction order. -/
def unwindDestroy : Nat → List AllocEvent
  | 0 => []
  | k + 1 => AllocEvent.destruct k :: unwindDestroy k

/-- Embedding of allocator::create&lt;T&gt;(num_objects, args...)
(custom_allocator.hpp lines 196-239): returns nullptr if num_objects &lt; 1;
allocates via custom_allocator::allocate, converting any exception to a
nullptr return; runs the construction loop; if some constructor throws, all
previously constructed objects are destroyed in reverse order, the memory is
freed and nullptr is returned.  First component: some ptr on success, none
for the nullptr returns.  Second component: the observable events. -/
def allocator.create (sizeofT : Nat) (cb : AllocCallbacks) (ctorOk : Nat → Bool)
    (numObjects : Nat) : Option Nat × List AllocEvent :=
  if numObjects < 1 then
    (none, [])
  else
    match customAllocator.allocate sizeofT cb numObjects with
    | (Except.error _, evs) => (none, evs)
    | (Except.ok ptr, evs) =>
      match constructLoop ctorOk 0 numObjects with
      | (true, _, cevs) => (some ptr, evs ++ cevs)
      | (false, k, cevs) =>
        (none, evs ++ cevs ++ unwindDestroy k ++ [AllocEvent.free ptr])

/-- Model of the VkResult codes appearing in layer.cpp.  ERROR_INIT_FAILED
stands for VK_ERROR_INITIALIZATION_FAILED, ERROR_OUT_OF_HOST_MEMORY for
VK_ERROR_OUT_OF_HOST_MEMORY, ERROR_EXTENSION_NOT_PRESENT for
VK_ERROR_EXTENSION_NOT_PRESENT; otherError covers the remaining codes a
downstream call may return. -/
inductive VkResult where
  | SUCCESS
  | ERROR_INIT_FAILED
  | ERROR_EXTENSION_NOT_PRESENT
  | ERROR_OUT_OF_HOST_MEMORY
  | otherError (code : Nat)
deriving DecidableEq, Repr

/-- Environment of one layer::create_instance call (layer.cpp lines 104-208):
the outcome of each fallible step the function performs, in program order.
chainInfoOk: layer_link_info, its pLayerInfo and loader_data_callback are all
non-null; loaderFuncsOk: fpGetInstanceProcAddr and loader_callback are
non-null; fpCreateInstanceOk: vkCreateInstance was resolved;
platformsNonEmpty: find_enabled_layer_platforms returned a non-empty set;
extAdd, addInstanceExts, getExtStrings: results of extensions.add,
wsi::add_instance_extensions_required_by_layer and
extensions.get_extension_strings; containsSurfaceExt: the extension list
contains VK_KHR_surface; nextCreateInstance: result of the downstream
vkCreateInstance; tableCreateOk: instance_dispatch_table::create returned a
value (its allocation succeeded); tablePopulate, associate, setEnabledExts:
results of table->populate, instance_private_data::associate and
set_instance_enabled_extensions. -/
structure CreateInstanceEnv where
  chainInfoOk : Bool
  loaderFuncsOk : Bool
  fpCreateInstanceOk : Bool
  platformsNonEmpty : Bool
  extAdd : VkResult
  containsSurfaceExt : Bool
  addInstanceExts : VkResult
  getExtStrings : VkResult
  nextCreateInstance : VkResult
  tableCreateOk : Bool
  tablePopulate : VkResult
  associate : VkResult
  setEnabledExts : VkResult

/-- Result of the extension-modification phase of create_instance (layer.cpp
lines 142-158): some error when one of its steps makes the function return
early, none when the phase is skipped (no layer platforms) or succeeds. -/
def CreateInstanceEnv.extPhase (e : CreateInstanceEnv) : Option VkResult :=
  if e.platformsNonEmpty then
    if e.extAdd ≠ VkResult.SUCCESS then some e.extAdd
    else if ¬ e.containsSurfaceExt then some VkResult.ERROR_EXTENSION_NOT_PRESENT
    else if e.addInstanceExts ≠ VkResult.SUCCESS then some e.addInstanceExts
    else if e.getExtStrings ≠ VkResult.SUCCESS then some e.getExtStrings
    else none
  else none

/-- Embedding of layer::create_instance (layer.cpp lines 104-208).  Returns
the VkResult surfaced to the caller together with whether the new instance
handle is still associated with private data in the layer registry when the
call returns: association happens at line 191 and is undone at line 203 if
set_instance_enabled_extensions fails. -/
def create_instance (e : CreateInstanceEnv) : VkResult × Bool :=
  if ¬ e.chainInfoOk then (VkResult.ERROR_INIT_FAILED, false)
  else if ¬ e.loaderFuncsOk then (VkResult.ERROR_INIT_FAILED, false)
  else if ¬ e.fpCreateInstanceOk then (VkResult.ERROR_INIT_FAILED, false)
  else
    match e.extPhase with
    | some r => (r, false)
    | none =>
      if e.nextCreateInstance ≠ VkResult.SUCCESS then (e.nextCreateInstance, false)
      else if ¬ e.tableCreateOk then (VkResult.ERROR_OUT_OF_HOST_MEMORY, false)
      else if e.tablePopulate ≠ VkResult.SUCCESS then (e.tablePopulate, false)
      else if e.associate ≠ VkResult.SUCCESS then (e.associate, false)
      else if e.setEnabledExts ≠ VkResult.SUCCESS then (e.setEnabledExts, false)
      else (VkResult.SUCCESS, true)

/-- Conjunction of all step outcomes of create_instance succeeding. -/
def CreateInstanceEnv.allOk (e : CreateInstanceEnv) : Prop :=
  e.chainInfoOk = true ∧ e.loaderFuncsOk = true ∧ e.fpCreateInstanceOk = true ∧
  e.extPhase = none ∧ e.nextCreateInstance = VkResult.SUCCESS ∧
  e.tableCreateOk = true ∧ e.tablePopulate = VkResult.SUCCESS ∧
  e.associate = VkResult.SUCCESS ∧ e.setEnabledExts = VkResult.SUCCESS

/-- Model of VkPhysicalDeviceFeatures: the one field the layer modifies
(textureCompressionBC) is explicit; the remaining VkBool32 feature fields are
modelled as one function from a field index to its value. -/
structure VkPhysicalDeviceFeatures where
  textureCompressionBC : Bool
  otherFields : Nat → Bool

/-- Environment of one layer::create_device call (layer.cpp lines 210-389),
for a build with ENABLE_INSTRUMENTATION and the experimental extensions off.
Fields mirror CreateInstanceEnv; pEnabledFeatures is the application's
pCreateInfo->pEnabledFeatures (none when that pointer is NULL). -/
structure CreateDeviceEnv where
  chainInfoOk : Bool
  loaderFuncsOk : Bool
  fpCreateDeviceOk : Bool
  platformsNonEmpty : Bool
  extAdd : VkResult
  addDeviceExts : VkResult
  getExtStrings : VkResult
  pEnabledFeatures : Option VkPhysicalDeviceFeatures
  nextCreateDevice : VkResult
  tableCreateOk : Bool
  tablePopulate : VkResult
  associate : VkResult
  setEnabledExts : VkResult

/-- Result of the extension-modification phase of create_device (layer.cpp
lines 250-258). -/
def CreateDeviceEnv.extPhase (e : CreateDeviceEnv) : Option VkResult :=
  if e.platformsNonEmpty then
    if e.extAdd ≠ VkResult.SUCCESS then some e.extAdd
    else if e.addDeviceExts ≠ VkResult.SUCCESS then some e.addDeviceExts
    else if e.getExtStrings ≠ VkResult.SUCCESS then some e.getExtStrings
    else none
  else none

/-- Conjunction of all step outcomes of create_device succeeding. -/
def CreateDeviceEnv.allOk (e : CreateDeviceEnv) : Prop :=
  e.chainInfoOk = true ∧ e.loaderFuncsOk = true ∧ e.fpCreateDeviceOk = true ∧
  e.extPhase = none ∧ e.nextCreateDevice = VkResult.SUCCESS ∧
  e.tableCreateOk = true ∧ e.tablePopulate = VkResult.SUCCESS ∧
  e.associate = VkResult.SUCCESS ∧ e.setEnabledExts = VkResult.SUCCESS

/-- Observable outcome of a create_device call: the surfaced VkResult, whether
the device handle remains associated in the registry on return, whether the
downstream vkCreateDevice was invoked, and which pEnabledFeatures structure
was passed to it (none when the pointer was forwarded as NULL). -/
structure CreateDeviceOutcome where
  result : VkResult
  associated : Bool
  chainCalled : Bool
  chainFeatures : Option VkPhysicalDeviceFeatures

/-- Feature substitution of layer.cpp lines 301-306: when the application
passed a feature structure, a copy with textureCompressionBC forced to
VK_FALSE replaces it; a NULL pointer is forwarded unchanged. -/
def substituteFeatures : Option VkPhysicalDeviceFeatures → Option VkPhysicalDeviceFeatures
  | none => none
  | some f => some { f with textureCompressionBC := false }

/-- Embedding of layer::create_device (layer.cpp lines 210-389).  On failures
after the downstream device exists the device is destroyed; association
happens at line 335 and is undone at line 354 if
set_device_enabled_extensions fails. -/
def create_device (e : CreateDeviceEnv) : CreateDeviceOutcome :=
  if ¬ e.chainInfoOk then ⟨VkResult.ERROR_INIT_FAILED, false, false, none⟩
  else if ¬ e.loaderFuncsOk then ⟨VkResult.ERROR_INIT_FAILED, false, false, none⟩
  else if ¬ e.fpCreateDeviceOk then ⟨VkResult.ERROR_INIT_FAILED, false, false, none⟩
  else
    match e.extPhase with
    | some r => ⟨r, false, false, none⟩
    | none =>
      let feats := substituteFeatures e.pEnabledFeatures
      if e.nextCreateDevice ≠ VkResult.SUCCESS then ⟨e.nextCreateDevice, false, true, feats⟩
      else if ¬ e.tableCreateOk then ⟨VkResult.ERROR_OUT_OF_HOST_MEMORY, false, true, feats⟩
      else if e.tablePopulate ≠ VkResult.SUCCESS then ⟨e.tablePopulate, false, true, feats⟩
      else if e.associate ≠ VkResult.SUCCESS then ⟨e.associate, false, true, feats⟩
      else if e.setEnabledExts ≠ VkResult.SUCCESS then ⟨e.setEnabledExts, false, true, feats⟩
      else ⟨VkResult.SUCCESS, true, true, feats⟩

/-- Actions of the destroy entry points that matter for the registry
lifecycle: removing the private data association, and forwarding the destroy
call down the chain. -/
inductive DestroyEvent where
  | disassociate
  | chainDestroy
deriving DecidableEq, Repr

/-- Embedding of wsi_layer_vkDestroyInstance (layer.cpp lines 400-418): a NULL
handle returns immediately; otherwise the private data is disassociated and
then the downstream vkDestroyInstance is called, in that order. -/
def wsi_layer_vkDestroyInstance (instanceIsNull : Bool) : List DestroyEvent :=
  if instanceIsNull then []
  else [DestroyEvent.disassociate, DestroyEvent.chainDestroy]

/-- Embedding of wsi_layer_vkDestroyDevice (layer.cpp lines 420-437): a NULL
handle returns immediately; otherwise the private data is disassociated and
then the downstream vkDestroyDevice is called, in that order. -/
def wsi_layer_vkDestroyDevice (deviceIsNull : Bool) : List DestroyEvent :=
  if deviceIsNull then []
  else [DestroyEvent.disassociate, DestroyEvent.chainDestroy]

/-- Embedding of util::vector::try_push_back (custom_allocator.hpp lines
327-339) as a function of the outcome of the underlying base::push_back call
(ok, or a thrown exception): some true on success, some false when the catch
clause caught std::bad_alloc.  Any other exception type escapes the catch
clause of this noexcept member, so no boolean result exists (none). -/
def vector.try_push_back (r : Except Exc Unit) : Option Bool :=
  match r with
  | Except.ok _ => some true
  | Except.error Exc.badAlloc => some false
  | Except.error _ => none

/-- Embedding of util::vector::try_resize (custom_allocator.hpp lines
359-371): identical catch structure to try_push_back. -/
def vector.try_resize (r : Except Exc Unit) : Option Bool :=
  match r with
  | Except.ok _ => some true
  | Except.error Exc.badAlloc => some false
  | Except.error _ => none

/-- Embedding of util::vector::try_reserve (custom_allocator.hpp lines
380-395): catches std::bad_alloc and std::length_error, returning false for
both; other exception types escape the catch clauses (none). -/
def vector.try_reserve (r : Except Exc Unit) : Option Bool :=
  match r with
  | Except.ok _ => some true
  | Except.error Exc.badAlloc => some false
  | Except.error Exc.lengthError => some false
  | Except.error _ => none

/-- Result of a wsi_layer_vkGetDeviceProcAddr lookup: a pointer to one of the
layer's own wsi_layer_* functions, or the trailing fall-through call to
disp.get_user_enabled_entrypoint. -/
inductive ProcAddrResult where
  | layerFn (name : String)
  | userLookup (name : String)
deriving DecidableEq, Repr

/-- Entry points intercepted when VK_KHR_swapchain is enabled on the device
(layer.cpp lines 527-537). -/
def swapchainEntryPoints : List String :=
  ["vkCreateSwapchainKHR", "vkDestroySwapchainKHR", "vkGetSwapchainImagesKHR",
   "vkAcquireNextImageKHR", "vkQueuePresentKHR", "vkAcquireNextImage2KHR",
   "vkGetDeviceGroupPresentCapabilitiesKHR",
   "vkGetDeviceGroupSurfacePresentModesKHR"]

/-- Embedding of wsi_layer_vkGetDeviceProcAddr (layer.cpp lines 524-568) for a
build with VULKAN_WSI_LAYER_EXPERIMENTAL off, as a function of whether
VK_KHR_swapchain and VK_KHR_shared_presentable_image are enabled on the
device and of the queried name.  The vkDestroyDevice, vkCreateImage and
vkBindImageMemory2 interceptions (lines 552-555) are unconditional. -/
def wsi_layer_vkGetDeviceProcAddr (swapchainExtEnabled : Bool)
    (sharedPresentableImageExtEnabled : Bool) (funcName : String) :
    ProcAddrResult :=
  if swapchainExtEnabled = true ∧ funcName ∈ swapchainEntryPoints then
    ProcAddrResult.layerFn funcName
  else if sharedPresentableImageExtEnabled = true ∧
      funcName = "vkGetSwapchainStatusKHR" then
    ProcAddrResult.layerFn funcName
  else if funcName = "vkDestroyDevice" ∨ funcName = "vkCreateImage" ∨
      funcName = "vkBindImageMemory2" then
    ProcAddrResult.layerFn funcName
  else
    ProcAddrResult.userLookup funcName

/-- Modelled from the spec: the swapchain core (swapchain_base) is not among
the sources, so the Image Slot state space is taken from spec section 3:
State of an Image Slot is one of FREE, ACQUIRED, PENDING_PRESENT,
PRESENTED_AWAITING_RELEASE. -/
inductive SlotState where
  | FREE
  | ACQUIRED
  | PENDING_PRESENT
  | PRESENTED_AWAITING_RELEASE
deriving DecidableEq, Repr

/-- Number of slots of the pool currently in state s. -/
def countSlots (s : SlotState) (slots : List SlotState) : Nat :=
  (slots.filter (fun t => t == s)).length

/-- Modelled from the spec (section 4.1): the swapchain core operations.
acquire i takes slot i FREE→ACQUIRED; present i takes it
ACQUIRED→PENDING_PRESENT; service i is the presentation thread handing the
request to the backend, PENDING_PRESENT→PRESENTED_AWAITING_RELEASE (4.2);
release i is release_slot, PRESENTED_AWAITING_RELEASE→FREE; destroy drains
and releases all slots. -/
inductive SwapchainOp where
  | acquire (i : Nat)
  | present (i : Nat)
  | service (i : Nat)
  | release (i : Nat)
  | destroy
deriving DecidableEq, Repr

/-- One slot transition: succeeds only when slot i exists and is in the
required source state, in which case it is set to the target state. -/
def stepSlot (slots : List SlotState) (i : Nat) (src tgt : SlotState) :
    Option (List SlotState) :=
  match slots.get? i with
  | some st => if st = src then some (slots.set i tgt) else none
  | none => none

/-- Modelled from the spec: the transition function of the swapchain core
state machine on the slot pool. -/
def swapchainStep : SwapchainOp → List SlotState → Option (List SlotState)
  | SwapchainOp.acquire i, slots =>
      stepSlot slots i SlotState.FREE SlotState.ACQUIRED
  | SwapchainOp.present i, slots =>
      stepSlot slots i SlotState.ACQUIRED SlotState.PENDING_PRESENT
  | SwapchainOp.service i, slots =>
      stepSlot slots i SlotState.PENDING_PRESENT
        SlotState.PRESENTED_AWAITING_RELEASE
  | SwapchainOp.release i, slots =>
      stepSlot slots i SlotState.PRESENTED_AWAITING_RELEASE SlotState.FREE
  | SwapchainOp.destroy, slots =>
      some (slots.map (fun _ => SlotState.FREE))

/-- The pool right after swapchain construction: all n slots FREE. -/
def initSlots (n : Nat) : List SlotState :=
  List.replicate n SlotState.FREE

/-- States of an n-slot swapchain reachable from construction through the
core operations. -/
inductive ReachableSlots (n : Nat) : List SlotState → Prop where
  | init : ReachableSlots n (initSlots n)
  | step (op : SwapchainOp) (s s' : List SlotState) :
      ReachableSlots n s → swapchainStep op s = some s' → ReachableSlots n s'

/-- Modelled from the spec: the present queue shared between the application
threads and the presentation thread (sections 4.1, 4.2, 5).  queued holds the
Present Requests currently in the queue, front first; served holds the
requests already handed to the backend's present primitive, in invocation
order; enqueued is the history of all requests in enqueue order. -/
structure PresentQueueState where
  queued : List Nat
  served : List Nat
  enqueued : List Nat
deriving DecidableEq, Repr

/-- Modelled from the spec: the two atomic operations on the present queue.
enqueue r is present() appending a request under the serializing lock (4.1);
service is the single presentation thread dequeuing the front request and
invoking backend.present (4.2) — it blocks (no step) on an empty queue. -/
inductive PresentOp where
  | enqueue (r : Nat)
  | service
deriving DecidableEq, Repr

/-- Transition function of the present queue; an arbitrary interleaving of
these steps models the racing application threads (each enqueue is atomic
under the lock) and the presentation thread. -/
def presentStep : PresentOp → PresentQueueState → Option PresentQueueState
  | PresentOp.enqueue r, st =>
      some { st with queued := st.queued ++ [r], enqueued := st.enqueued ++ [r] }
  | PresentOp.service, st =>
      match st.queued with
      | [] => none
      | r :: rest => some { st with queued := rest, served := st.served ++ [r] }

/-- The present queue at swapchain construction: empty. -/
def initQueue : PresentQueueState := ⟨[], [], []⟩

/-- Queue states reachable through any interleaving of enqueues and
services. -/
inductive ReachableQueue : PresentQueueState → Prop where
  | init : ReachableQueue initQueue
  | step (op : PresentOp) (s s' : PresentQueueState) :
      ReachableQueue s → presentStep op s = some s' → ReachableQueue s'

/-- Modelled from the spec (section 4.4 and the wsi_factory.hpp contract):
the per-platform surface property table returned by the capability
provider. -/
structure SurfaceProperties where
  formats : List Nat
  presentModes : List Nat
  minImageCount : Nat
  maxImageCount : Nat
deriving DecidableEq, Repr

/-- Modelled from the spec: the instance private data as far as the
capability provider consults it — the set of platform tags the layer has
enabled for this instance. -/
structure InstancePrivateData where
  enabledPlatforms : List Nat

/-- Modelled from the spec: wsi::get_surface_properties (declared in
wsi_factory.hpp lines 41-49, body not among the sources): a pure lookup that
returns the platform's property table, and nullptr (none) exactly when the
surface's platform type is unsupported. -/
def get_surface_properties (inst : InstancePrivateData)
    (platformProps : Nat → SurfaceProperties) (surfacePlatform : Nat) :
    Option SurfaceProperties :=
  if surfacePlatform ∈ inst.enabledPlatforms then
    some (platformProps surfacePlatform)
  else
    none

/-- Failure vocabulary of the capability provider (spec section 7). -/
inductive WsiError where
  | Unsupported
  | SurfaceLost
deriving DecidableEq, Repr

/-- Modelled from the spec: swapchain create() queries the capability
provider first; an unsupported surface platform fails before any swapchain
state is created or modified, so the caller's swapchain list is returned
unchanged. -/
def swapchain_create_query (inst : InstancePrivateData)
    (platformProps : Nat → SurfaceProperties) (surfacePlatform : Nat)
    (swapchains : List Nat) :
    Except WsiError SurfaceProperties × List Nat :=
  match get_surface_properties inst platformProps surfacePlatform with
  | none => (Except.error WsiError.Unsupported, swapchains)
  | some props => (Except.ok props, surfacePlatform :: swapchains)

theorem allocate_eq_of_guard (sizeofT : Nat) (cb : AllocCallbacks) (n : Nat)
    (h0 : sizeofT ≠ 0) (h : SIZE_MAX / sizeofT < n) :
    customAllocator.allocate sizeofT cb n = (Except.error Exc.badAlloc, []) := by
  unfold customAllocator.allocate
  simp [h0, h]

theorem allocate_size_exact (sizeofT : Nat) (cb : AllocCallbacks) (n : Nat)
    (h0 : sizeofT ≠ 0) (h : ¬ SIZE_MAX / sizeofT < n) :
    (n * sizeofT) % 2 ^ 64 = n * sizeofT ∧ n * sizeofT ≤ SIZE_MAX := by
  have hpos : 0 < sizeofT := Nat.pos_of_ne_zero h0
  have hle : n ≤ SIZE_MAX / sizeofT := Nat.le_of_not_lt h
  have hmul : n * sizeofT ≤ SIZE_MAX := (Nat.le_div_iff_mul_le hpos).mp hle
  have hlt : n * sizeofT < 2 ^ 64 := by
    have : SIZE_MAX < 2 ^ 64 := by decide
    omega
  exact ⟨Nat.mod_eq_of_lt hlt, hmul⟩

/-- C10: custom_allocator::allocate guards n * sizeof(T) against overflow:
when sizeof(T) is non-zero and n exceeds SIZE_MAX / sizeof(T) it raises
bad_alloc with no callback invocation, and every byte count ever handed to
pfnAllocation is the exact (unwrapped) product n * sizeof(T), at most
SIZE_MAX. -/
theorem C10_allocate_overflow_guard (sizeofT n : Nat) (cb : AllocCallbacks)
    (h0 : sizeofT ≠ 0) :
    (SIZE_MAX / sizeofT < n →
       customAllocator.allocate sizeofT cb n = (Except.error Exc.badAlloc, [])) ∧
    (∀ s, AllocEvent.callAlloc s ∈ (customAllocator.allocate sizeofT cb n).2 →
       s = n * sizeofT ∧ n * sizeofT ≤ SIZE_MAX) := by
  constructor
  · intro h
    exact allocate_eq_of_guard sizeofT cb n h0 h
  · intro s hs
    by_cases h : SIZE_MAX / sizeofT < n
    · rw [allocate_eq_of_guard sizeofT cb n h0 h] at hs
      simp at hs
    · obtain ⟨hmod, hle⟩ := allocate_size_exact sizeofT cb n h0 h
      unfold customAllocator.allocate at hs
      rw [if_neg (by push_neg; intro _; exact Nat.le_of_not_lt h)] at hs
      cases hcb : cb.pfnAllocation ((n * sizeofT) % 2 ^ 64) <;>
        rw [hcb] at hs <;> simp at hs <;> subst hs <;> exact ⟨by omega, hle⟩

/-- Witness for C10 at sizeof(T) = 4 and n = 2^62 (which exceeds
SIZE_MAX / 4): allocate raises bad_alloc and performs no callback call. -/
theorem C10_allocate_overflow_guard_witness :
    customAllocator.allocate 4 ⟨fun _ => some 1⟩ (2 ^ 62) =
      (Except.error Exc.badAlloc, []) :=
  (C10_allocate_overflow_guard 4 (2 ^ 62) ⟨fun _ => some 1⟩ (by decide)).1
    (by decide)

theorem constructLoop_all_ok (ctorOk : Nat → Bool) :
    ∀ remaining constructed,
      (∀ i, i < remaining → ctorOk (constructed + i) = true) →
      constructLoop ctorOk constructed remaining =
        (true, constructed + remaining,
         (List.range' constructed remaining).map AllocEvent.construct) := by
  intro remaining
  induction remaining with
  | zero => intro constructed _; simp [constructLoop]
  | succ r ih =>
    intro constructed h
    have h0 : ctorOk constructed = true := by
      simpa using h 0 (Nat.succ_pos r)
    have hrec := ih (constructed + 1) (fun i hi => by
      simpa [Nat.add_assoc, Nat.add_comm 1 i] using h (i + 1) (Nat.succ_lt_succ hi))
    simp only [constructLoop, h0, if_true, hrec, List.range'_succ, List.map_cons,
      Prod.mk.injEq, true_and]
    exact ⟨by omega, trivial⟩

theorem constructLoop_fst_true (ctorOk : Nat → Bool) :
    ∀ remaining constructed,
      (constructLoop ctorOk constructed remaining).1 = true →
      ∀ i, i < remaining → ctorOk (constructed + i) = true := by
  intro remaining
  induction remaining with
  | zero => intro constructed _ i hi; omega
  | succ r ih =>
    intro constructed htrue i hi
    by_cases h0 : ctorOk constructed = true
    · rcases i with _ | j
      · simpa using h0
      · have hrest : (constructLoop ctorOk (constructed + 1) r).1 = true := by
          simpa [constructLoop, h0] using htrue
        simpa [Nat.add_assoc, Nat.add_comm 1 j] using
          ih (constructed + 1) hrest j (Nat.lt_of_succ_lt_succ hi)
    · have hf : ctorOk constructed = false := eq_false_of_ne_true h0
      simp [constructLoop, hf] at htrue

theorem constructLoop_first_fail (ctorOk : Nat → Bool) :
    ∀ remaining constructed k, k < remaining → ctorOk (constructed + k) = false →
      (∀ i, i < k → ctorOk (constructed + i) = true) →
      constructLoop ctorOk constructed remaining =
        (false, constructed + k,
         (List.range' constructed k).map AllocEvent.construct) := by
  intro remaining
  induction remaining with
  | zero => intro constructed k hk; exact absurd hk (Nat.not_lt_zero k)
  | succ r ih =>
    intro constructed k hk hfail hpre
    rcases k with _ | j
    · have h0 : ctorOk constructed = false := by simpa using hfail
      simp [constructLoop, h0]
    · have h0 : ctorOk constructed = true := by
        simpa using hpre 0 (Nat.succ_pos j)
      have hrec := ih (constructed + 1) j (Nat.lt_of_succ_lt_succ hk)
        (by simpa [Nat.add_assoc, Nat.add_comm 1 j] using hfail)
        (fun i hi => by
          simpa [Nat.add_assoc, Nat.add_comm 1 i] using hpre (i + 1) (Nat.succ_lt_succ hi))
      simp only [constructLoop, h0, if_true, hrec, List.range'_succ, List.map_cons,
        Prod.mk.injEq, true_and]
      exact ⟨by omega, trivial⟩

theorem create_fst_some_all_ctorOk (sizeofT : Nat) (cb : AllocCallbacks)
    (ctorOk : Nat → Bool) (n : Nat) (ptr : Nat)
    (hsome : (allocator.create sizeofT cb ctorOk n).1 = some ptr) :
    ∀ i, i < n → ctorOk i = true := by
  intro i hi
  unfold allocator.create at hsome
  by_cases hn : n < 1
  · simp [hn] at hsome
  · rw [if_neg hn] at hsome
    rcases hal : customAllocator.allocate sizeofT cb n with ⟨r, evs⟩
    rw [hal] at hsome
    cases r with
    | error e => simp at hsome
    | ok p =>
      rcases hcl : constructLoop ctorOk 0 n with ⟨b, k, cevs⟩
      rw [hcl] at hsome
      cases b with
      | false => simp at hsome
      | true =>
        have := constructLoop_fst_true ctorOk n 0 (by rw [hcl]) i hi
        simpa using this

/-- C8: allocator::create(num_objects, args...) is all-or-nothing: it returns
nullptr when num_objects is 0; a non-null return implies every one of the
num_objects constructors completed; and if the constructor of object k throws
(with all earlier ones having succeeded and the allocation having succeeded),
create returns nullptr after destroying objects k-1 down to 0 in reverse
construction order and freeing the raw memory. -/
theorem C8_create_all_or_nothing (sizeofT : Nat) (cb : AllocCallbacks)
    (ctorOk : Nat → Bool) (n : Nat) :
    allocator.create sizeofT cb ctorOk 0 = (none, []) ∧
    (∀ ptr, (allocator.create sizeofT cb ctorOk n).1 = some ptr →
       ∀ i, i < n → ctorOk i = true) ∧
    (∀ ptr evs k, customAllocator.allocate sizeofT cb n = (Except.ok ptr, evs) →
       k < n → ctorOk k = false → (∀ i, i < k → ctorOk i = true) →
       allocator.create sizeofT cb ctorOk n =
         (none, evs ++ (List.range k).map AllocEvent.construct
              ++ unwindDestroy k ++ [AllocEvent.free ptr])) := by
  refine ⟨by simp [allocator.create], ?_, ?_⟩
  · intro ptr hsome i hi
    exact create_fst_some_all_ctorOk sizeofT cb ctorOk n ptr hsome i hi
  · intro ptr evs k hal hk hfail hpre
    have hn : ¬ n < 1 := by omega
    have hcl := constructLoop_first_fail ctorOk n 0 k hk (by simpa using hfail)
      (fun i hi => by simpa using hpre i hi)
    unfold allocator.create
    rw [if_neg hn, hal, hcl]
    simp [List.range_eq_range']

/-- Witness for C8: with sizeof(T) = 1, a callback that returns pointer 42,
and a constructor that throws for object index 1, create(3) allocates,
constructs object 0, unwinds by destroying object 0, frees the memory, and
returns nullptr. -/
theorem C8_create_all_or_nothing_witness :
    allocator.create 1 ⟨fun _ => some 42⟩ (fun i => !(i == 1)) 3 =
      (none, [AllocEvent.callAlloc 3, AllocEvent.construct 0,
              AllocEvent.destruct 0, AllocEvent.free 42]) := by
  have h := (C8_create_all_or_nothing 1 ⟨fun _ => some 42⟩
      (fun i => !(i == 1)) 3).2.2 42 [AllocEvent.callAlloc 3] 1
      rfl (by decide) (by decide) (by decide)
  simpa using h

theorem allocate_fst_error_of_cb_none (sizeofT : Nat) (cb : AllocCallbacks)
    (n : Nat) (h : cb.pfnAllocation ((n * sizeofT) % 2 ^ 64) = none) :
    (customAllocator.allocate sizeofT cb n).1 = Except.error Exc.badAlloc := by
  unfold customAllocator.allocate
  by_cases hg : sizeofT ≠ 0 ∧ SIZE_MAX / sizeofT < n
  · rw [if_pos hg]
  · rw [if_neg hg]
    simp only [h]

theorem create_none_of_alloc_error (sizeofT : Nat) (cb : AllocCallbacks)
    (ctorOk : Nat → Bool) (n : Nat)
    (h : (customAllocator.allocate sizeofT cb n).1 = Except.error Exc.badAlloc) :
    (allocator.create sizeofT cb ctorOk n).1 = none := by
  unfold allocator.create
  by_cases hn : n < 1
  · simp [hn]
  · rw [if_neg hn]
    rcases hal : customAllocator.allocate sizeofT cb n with ⟨r, evs⟩
    rw [hal] at h
    simp at h
    subst h
    simp

/-- C1: an allocation request failing inside the adapter is reported by a null
result, never an exception: allocator::create returns nullptr whenever
pfnAllocation returned NULL for the requested byte count; and when
create_instance reaches the dispatch-table construction and that allocation
fails, the public entry point returns VK_ERROR_OUT_OF_HOST_MEMORY. -/
theorem C1_alloc_failure_null_and_oom :
    (∀ sizeofT cb ctorOk n,
        cb.pfnAllocation ((n * sizeofT) % 2 ^ 64) = none →
        (allocator.create sizeofT cb ctorOk n).1 = none) ∧
    (∀ e : CreateInstanceEnv,
        e.chainInfoOk = true → e.loaderFuncsOk = true →
        e.fpCreateInstanceOk = true → e.extPhase = none →
        e.nextCreateInstance = VkResult.SUCCESS → e.tableCreateOk = false →
        (create_instance e).1 = VkResult.ERROR_OUT_OF_HOST_MEMORY) := by
  constructor
  · intro sizeofT cb ctorOk n h
    exact create_none_of_alloc_error sizeofT cb ctorOk n
      (allocate_fst_error_of_cb_none sizeofT cb n h)
  · intro e h1 h2 h3 hep h4 h5
    unfold create_instance
    rw [hep]
    simp [h1, h2, h3, h4, h5]

/-- Witness for C1: a callback that always returns NULL makes create(2)
return nullptr, and an all-good create_instance environment whose
dispatch-table allocation fails returns VK_ERROR_OUT_OF_HOST_MEMORY. -/
theorem C1_alloc_failure_null_and_oom_witness :
    (allocator.create 1 ⟨fun _ => none⟩ (fun _ => true) 2).1 = none ∧
    (create_instance ⟨true, true, true, false, VkResult.SUCCESS, true,
        VkResult.SUCCESS, VkResult.SUCCESS, VkResult.SUCCESS, false,
        VkResult.SUCCESS, VkResult.SUCCESS, VkResult.SUCCESS⟩).1 =
      VkResult.ERROR_OUT_OF_HOST_MEMORY :=
  ⟨C1_alloc_failure_null_and_oom.1 1 ⟨fun _ => none⟩ (fun _ => true) 2 rfl,
   C1_alloc_failure_null_and_oom.2 _ rfl rfl rfl rfl rfl rfl⟩

theorem instance_extPhase_ne_success (e : CreateInstanceEnv)
    (r : VkResult) (h : e.extPhase = some r) : r ≠ VkResult.SUCCESS := by
  intro hr
  subst hr
  unfold CreateInstanceEnv.extPhase at h
  split_ifs at h <;> simp_all

theorem device_extPhase_ne_success (e : CreateDeviceEnv)
    (r : VkResult) (h : e.extPhase = some r) : r ≠ VkResult.SUCCESS := by
  intro hr
  subst hr
  unfold CreateDeviceEnv.extPhase at h
  split_ifs at h <;> simp_all

set_option maxHeartbeats 1600000 in
/-- C6: the handle registry follows an insert-on-create / remove-on-destroy
lifecycle: at the end of create_instance and create_device the new handle is
associated with private data exactly when the call returns VK_SUCCESS (every
failure after association is preceded by disassociation), and both destroy
entry points disassociate the private data strictly before forwarding the
destroy call down the chain. -/
theorem C6_registry_lifecycle :
    (∀ e : CreateInstanceEnv,
        (create_instance e).2 = true ↔
          (create_instance e).1 = VkResult.SUCCESS) ∧
    (∀ e : CreateDeviceEnv,
        (create_device e).associated = true ↔
          (create_device e).result = VkResult.SUCCESS) ∧
    wsi_layer_vkDestroyInstance false =
      [DestroyEvent.disassociate, DestroyEvent.chainDestroy] ∧
    wsi_layer_vkDestroyDevice false =
      [DestroyEvent.disassociate, DestroyEvent.chainDestroy] := by
  refine ⟨?_, ?_, rfl, rfl⟩
  · intro e
    unfold create_instance
    rcases hep : e.extPhase with _ | r
    · split_ifs <;> simp_all
    · have hr := instance_extPhase_ne_success e r hep
      split_ifs <;> simp_all
  · intro e
    unfold create_device
    rcases hep : e.extPhase with _ | r
    · split_ifs <;> simp_all
    · have hr := device_extPhase_ne_success e r hep
      split_ifs <;> simp_all

set_option maxHeartbeats 1600000 in
/-- C9: when create_device reaches the downstream vkCreateDevice call, a
non-null application pEnabledFeatures is replaced by a copy whose
textureCompressionBC is forced to VK_FALSE with every other field unchanged,
and a NULL pEnabledFeatures is forwarded with no substitute structure. -/
theorem C9_texture_compression_bc_disabled (e : CreateDeviceEnv)
    (hchain : (create_device e).chainCalled = true) :
    (∀ f, e.pEnabledFeatures = some f →
       (create_device e).chainFeatures = some ⟨false, f.otherFields⟩) ∧
    (e.pEnabledFeatures = none → (create_device e).chainFeatures = none) := by
  have hfeats : (create_device e).chainFeatures =
      substituteFeatures e.pEnabledFeatures := by
    unfold create_device at hchain ⊢
    rcases hep : e.extPhase with _ | r <;>
      split_ifs at hchain ⊢ <;> simp_all
  constructor
  · intro f hf
    rw [hfeats, hf]
    rfl
  · intro hf
    rw [hfeats, hf]
    rfl

/-- Witness for C9: an all-success environment with application features
having textureCompressionBC on; down the chain it is off and the other fields
are preserved. -/
theorem C9_texture_compression_bc_disabled_witness :
    (create_device ⟨true, true, true, false, VkResult.SUCCESS,
        VkResult.SUCCESS, VkResult.SUCCESS, some ⟨true, fun _ => false⟩,
        VkResult.SUCCESS, true, VkResult.SUCCESS, VkResult.SUCCESS,
        VkResult.SUCCESS⟩).chainFeatures = some ⟨false, fun _ => false⟩ :=
  (C9_texture_compression_bc_disabled ⟨true, true, true, false,
      VkResult.SUCCESS, VkResult.SUCCESS, VkResult.SUCCESS,
      some ⟨true, fun _ => false⟩, VkResult.SUCCESS, true, VkResult.SUCCESS,
      VkResult.SUCCESS, VkResult.SUCCESS⟩ rfl).1 ⟨true, fun _ => false⟩ rfl

/-- Counterexample to C4 as stated: the catch clause of try_push_back handles
only std::bad_alloc, so an exception of any other type thrown by the
underlying push_back (e.g. from an element copy constructor, or a
length_error) is not converted into a false result. -/
theorem C4_counterexample_uncaught_exception :
    vector.try_push_back (Except.error Exc.otherExc) = none ∧
    vector.try_push_back (Except.error Exc.otherExc) ≠ some false ∧
    vector.try_resize (Except.error Exc.lengthError) = none := by
  refine ⟨rfl, ?_, rfl⟩
  decide

set_option maxHeartbeats 1600000 in
/-- C4 amended: no failure crosses the public boundary as an exception:
allocator::create (catch (...)) converts every internal exception — an
allocation failure or any constructor throw — into a nullptr return; the
vector helpers convert std::bad_alloc (and, for try_reserve only, also
std::length_error) into a false return, while exception types outside their
catch clauses produce no result at all (the noexcept specification stops
them); and both create_instance and create_device return VK_SUCCESS exactly
when every fallible internal step succeeded, surfacing a failure as the
VkResult of the failing step otherwise. -/
theorem C4_noexcept_boundary (sizeofT : Nat) (cb : AllocCallbacks)
    (ctorOk : Nat → Bool) (n : Nat) :
    ((customAllocator.allocate sizeofT cb n).1 = Except.error Exc.badAlloc →
       (allocator.create sizeofT cb ctorOk n).1 = none) ∧
    (∀ k, k < n → ctorOk k = false →
       (allocator.create sizeofT cb ctorOk n).1 = none) ∧
    (vector.try_push_back (Except.ok ()) = some true ∧
     vector.try_push_back (Except.error Exc.badAlloc) = some false ∧
     vector.try_push_back (Except.error Exc.lengthError) = none ∧
     vector.try_push_back (Except.error Exc.otherExc) = none) ∧
    (vector.try_resize (Except.ok ()) = some true ∧
     vector.try_resize (Except.error Exc.badAlloc) = some false ∧
     vector.try_resize (Except.error Exc.otherExc) = none) ∧
    (vector.try_reserve (Except.ok ()) = some true ∧
     vector.try_reserve (Except.error Exc.badAlloc) = some false ∧
     vector.try_reserve (Except.error Exc.lengthError) = some false ∧
     vector.try_reserve (Except.error Exc.otherExc) = none) ∧
    (∀ e : CreateInstanceEnv,
       (create_instance e).1 = VkResult.SUCCESS ↔ e.allOk) ∧
    (∀ e : CreateDeviceEnv,
       (create_device e).result = VkResult.SUCCESS ↔ e.allOk) := by
  refine ⟨?_, ?_, ⟨rfl, rfl, rfl, rfl⟩, ⟨rfl, rfl, rfl⟩, ⟨rfl, rfl, rfl, rfl⟩,
    ?_, ?_⟩
  · exact create_none_of_alloc_error sizeofT cb ctorOk n
  · intro k hk hfk
    rcases hc : (allocator.create sizeofT cb ctorOk n).1 with _ | p
    · rfl
    · have := create_fst_some_all_ctorOk sizeofT cb ctorOk n p hc k hk
      rw [this] at hfk
      exact absurd hfk (by simp)
  · intro e
    unfold create_instance CreateInstanceEnv.allOk
    rcases hep : e.extPhase with _ | r
    · split_ifs <;> simp_all
    · have hr := instance_extPhase_ne_success e r hep
      split_ifs <;> simp_all
  · intro e
    unfold create_device CreateDeviceEnv.allOk
    rcases hep : e.extPhase with _ | r
    · split_ifs <;> simp_all
    · have hr := device_extPhase_ne_success e r hep
      split_ifs <;> simp_all

/-- Witness for C4 at concrete inputs: a constructor throw in create(2)
yields nullptr, and all-success create_instance and create_device
environments return VK_SUCCESS. -/
theorem C4_noexcept_boundary_witness :
    (allocator.create 1 ⟨fun _ => some 7⟩ (fun _ => false) 2).1 = none ∧
    (create_instance ⟨true, true, true, false, VkResult.SUCCESS, true,
        VkResult.SUCCESS, VkResult.SUCCESS, VkResult.SUCCESS, true,
        VkResult.SUCCESS, VkResult.SUCCESS, VkResult.SUCCESS⟩).1 =
      VkResult.SUCCESS ∧
    (create_device ⟨true, true, true, false, VkResult.SUCCESS,
        VkResult.SUCCESS, VkResult.SUCCESS, none, VkResult.SUCCESS, true,
        VkResult.SUCCESS, VkResult.SUCCESS, VkResult.SUCCESS⟩).result =
      VkResult.SUCCESS :=
  ⟨(C4_noexcept_boundary 1 ⟨fun _ => some 7⟩ (fun _ => false) 2).2.1 0
      (by decide) rfl,
   ((C4_noexcept_boundary 1 ⟨fun _ => some 7⟩ (fun _ => false) 2).2.2.2.2.2.1
      ⟨true, true, true, false, VkResult.SUCCESS, true, VkResult.SUCCESS,
       VkResult.SUCCESS, VkResult.SUCCESS, true, VkResult.SUCCESS,
       VkResult.SUCCESS, VkResult.SUCCESS⟩).mpr
      ⟨rfl, rfl, rfl, rfl, rfl, rfl, rfl, rfl, rfl⟩,
   ((C4_noexcept_boundary 1 ⟨fun _ => some 7⟩ (fun _ => false) 2).2.2.2.2.2.2
      ⟨true, true, true, false, VkResult.SUCCESS, VkResult.SUCCESS,
       VkResult.SUCCESS, none, VkResult.SUCCESS, true, VkResult.SUCCESS,
       VkResult.SUCCESS, VkResult.SUCCESS⟩).mpr
      ⟨rfl, rfl, rfl, rfl, rfl, rfl, rfl, rfl, rfl⟩⟩

/-- Counterexample to C5 as stated: with neither VK_KHR_swapchain nor
VK_KHR_shared_presentable_image enabled, querying vkDestroyDevice does not
fall through to the user-enabled entry point lookup; the layer intercepts it
unconditionally (layer.cpp line 552), as it does vkCreateImage and
vkBindImageMemory2. -/
theorem C5_counterexample_unconditional_intercepts :
    wsi_layer_vkGetDeviceProcAddr false false "vkDestroyDevice" =
      ProcAddrResult.layerFn "vkDestroyDevice" ∧
    wsi_layer_vkGetDeviceProcAddr false false "vkDestroyDevice" ≠
      ProcAddrResult.userLookup "vkDestroyDevice" := by
  constructor <;> decide

/-- C5 amended: wsi_layer_vkGetDeviceProcAddr returns the layer's swapchain
entry points (create/destroy/get-images/acquire/present/acquire2 and the
device-group present-capability queries) exactly when VK_KHR_swapchain is
enabled, returns vkGetSwapchainStatusKHR exactly when
VK_KHR_shared_presentable_image is enabled, and for every other name apart
from the always-intercepted vkDestroyDevice, vkCreateImage and
vkBindImageMemory2 falls through to the user-enabled entry point lookup. -/
theorem C5_get_device_proc_addr (sc sh : Bool) (funcName : String) :
    (funcName ∈ swapchainEntryPoints →
       (wsi_layer_vkGetDeviceProcAddr sc sh funcName =
           ProcAddrResult.layerFn funcName ↔ sc = true)) ∧
    (wsi_layer_vkGetDeviceProcAddr sc sh "vkGetSwapchainStatusKHR" =
        ProcAddrResult.layerFn "vkGetSwapchainStatusKHR" ↔ sh = true) ∧
    (funcName ∉ swapchainEntryPoints → funcName ≠ "vkGetSwapchainStatusKHR" →
       funcName ≠ "vkDestroyDevice" → funcName ≠ "vkCreateImage" →
       funcName ≠ "vkBindImageMemory2" →
       wsi_layer_vkGetDeviceProcAddr sc sh funcName =
         ProcAddrResult.userLookup funcName) := by
  refine ⟨?_, ?_, ?_⟩
  · intro hmem
    have hcases : funcName = "vkCreateSwapchainKHR" ∨
        funcName = "vkDestroySwapchainKHR" ∨
        funcName = "vkGetSwapchainImagesKHR" ∨
        funcName = "vkAcquireNextImageKHR" ∨
        funcName = "vkQueuePresentKHR" ∨
        funcName = "vkAcquireNextImage2KHR" ∨
        funcName = "vkGetDeviceGroupPresentCapabilitiesKHR" ∨
        funcName = "vkGetDeviceGroupSurfacePresentModesKHR" := by
      simpa [swapchainEntryPoints] using hmem
    rcases hcases with h | h | h | h | h | h | h | h <;> subst h <;>
      cases sc <;> cases sh <;> decide
  · cases sc <;> cases sh <;> decide
  · intro h1 h2 h3 h4 h5
    have hc1 : ¬ (sc = true ∧ funcName ∈ swapchainEntryPoints) :=
      fun hc => h1 hc.2
    have hc2 : ¬ (sh = true ∧ funcName = "vkGetSwapchainStatusKHR") :=
      fun hc => h2 hc.2
    have hc3 : ¬ (funcName = "vkDestroyDevice" ∨ funcName = "vkCreateImage" ∨
        funcName = "vkBindImageMemory2") :=
      fun hc => hc.elim h3 (fun hc2 => hc2.elim h4 h5)
    simp [wsi_layer_vkGetDeviceProcAddr, hc1, hc2, hc3]

/-- Witness for C5 at concrete names: vkQueuePresentKHR resolves to the
layer with swapchain enabled, and an unknown name with no layer extensions
enabled falls through. -/
theorem C5_get_device_proc_addr_witness :
    wsi_layer_vkGetDeviceProcAddr true false "vkQueuePresentKHR" =
      ProcAddrResult.layerFn "vkQueuePresentKHR" ∧
    wsi_layer_vkGetDeviceProcAddr false false "vkCmdDraw" =
      ProcAddrResult.userLookup "vkCmdDraw" :=
  ⟨((C5_get_device_proc_addr true false "vkQueuePresentKHR").1
      (by decide)).mpr rfl,
   (C5_get_device_proc_addr false false "vkCmdDraw").2.2 (by decide)
     (by decide) (by decide) (by decide) (by decide)⟩

theorem countSlots_partition (slots : List SlotState) :
    countSlots SlotState.FREE slots + countSlots SlotState.ACQUIRED slots +
    countSlots SlotState.PENDING_PRESENT slots +
    countSlots SlotState.PRESENTED_AWAITING_RELEASE slots =
      slots.length := by
  induction slots with
  | nil => rfl
  | cons hd tl ih =>
    cases hd <;> simp [countSlots, List.filter_cons] at ih ⊢ <;> omega

theorem stepSlot_length (slots : List SlotState) (i : Nat) (src tgt : SlotState)
    (s' : List SlotState) (h : stepSlot slots i src tgt = some s') :
    s'.length = slots.length := by
  unfold stepSlot at h
  split at h
  · split_ifs at h
    simp only [Option.some.injEq] at h
    subst h
    simp
  · simp at h

theorem swapchainStep_length (op : SwapchainOp) (s s' : List SlotState)
    (h : swapchainStep op s = some s') : s'.length = s.length := by
  cases op with
  | acquire i => exact stepSlot_length s i _ _ s' h
  | present i => exact stepSlot_length s i _ _ s' h
  | service i => exact stepSlot_length s i _ _ s' h
  | release i => exact stepSlot_length s i _ _ s' h
  | destroy =>
    unfold swapchainStep at h
    simp only [Option.some.injEq] at h
    subst h
    simp

/-- C2: for an n-slot swapchain, at every reachable state the FREE, ACQUIRED,
PENDING_PRESENT and PRESENTED_AWAITING_RELEASE counts sum to n, and every
core operation preserves that sum. -/
theorem C2_slot_count_invariant (n : Nat) :
    (∀ slots, ReachableSlots n slots →
       countSlots SlotState.FREE slots + countSlots SlotState.ACQUIRED slots +
       countSlots SlotState.PENDING_PRESENT slots +
       countSlots SlotState.PRESENTED_AWAITING_RELEASE slots = n) ∧
    (∀ op slots slots', swapchainStep op slots = some slots' →
       countSlots SlotState.FREE slots' + countSlots SlotState.ACQUIRED slots' +
       countSlots SlotState.PENDING_PRESENT slots' +
       countSlots SlotState.PRESENTED_AWAITING_RELEASE slots' =
       countSlots SlotState.FREE slots + countSlots SlotState.ACQUIRED slots +
       countSlots SlotState.PENDING_PRESENT slots +
       countSlots SlotState.PRESENTED_AWAITING_RELEASE slots) := by
  constructor
  · intro slots h
    have hlen : slots.length = n := by
      induction h with
      | init => simp [initSlots]
      | step op s s' hs hstep ih =>
        rw [swapchainStep_length op s s' hstep, ih]
    rw [countSlots_partition, hlen]
  · intro op slots slots' hstep
    rw [countSlots_partition, countSlots_partition,
      swapchainStep_length op slots slots' hstep]

/-- Witness for C2 on a 2-slot swapchain after one acquire: the four state
counts still sum to 2. -/
theorem C2_slot_count_invariant_witness :
    countSlots SlotState.FREE [SlotState.ACQUIRED, SlotState.FREE] +
    countSlots SlotState.ACQUIRED [SlotState.ACQUIRED, SlotState.FREE] +
    countSlots SlotState.PENDING_PRESENT
      [SlotState.ACQUIRED, SlotState.FREE] +
    countSlots SlotState.PRESENTED_AWAITING_RELEASE
      [SlotState.ACQUIRED, SlotState.FREE] = 2 :=
  (C2_slot_count_invariant 2).1 [SlotState.ACQUIRED, SlotState.FREE]
    (ReachableSlots.step (SwapchainOp.acquire 0) (initSlots 2)
      [SlotState.ACQUIRED, SlotState.FREE] ReachableSlots.init rfl)

/-- C3: in every reachable queue state the requests already handed to the
backend followed by the requests still queued are exactly the enqueue
history, so the backend receives the requests in exactly enqueue order
(served is a prefix of the history: request i+1 is never served before
request i). -/
theorem C3_fifo_present_order (st : PresentQueueState)
    (h : ReachableQueue st) :
    st.served ++ st.queued = st.enqueued ∧
    ∃ rest, st.served ++ rest = st.enqueued := by
  have key : st.served ++ st.queued = st.enqueued := by
    induction h with
    | init => rfl
    | step op s s' hs hstep ih =>
      cases op with
      | enqueue r =>
        unfold presentStep at hstep
        simp only [Option.some.injEq] at hstep
        subst hstep
        show s.served ++ (s.queued ++ [r]) = s.enqueued ++ [r]
        rw [← List.append_assoc, ih]
      | service =>
        simp only [presentStep] at hstep
        rcases hq : s.queued with _ | ⟨r, rest⟩ <;> rw [hq] at hstep
        · simp at hstep
        · simp only [Option.some.injEq] at hstep
          subst hstep
          rw [hq] at ih
          show (s.served ++ [r]) ++ rest = s.enqueued
          rw [List.append_assoc]
          simpa using ih
  exact ⟨key, st.queued, key⟩

/-- Witness for C3 at the reachable state obtained by enqueue 5, enqueue 7,
service: the backend has served request 5 first and 7 is still queued. -/
theorem C3_fifo_present_order_witness :
    (⟨[7], [5], [5, 7]⟩ : PresentQueueState).served ++
      (⟨[7], [5], [5, 7]⟩ : PresentQueueState).queued = [5, 7] :=
  (C3_fifo_present_order ⟨[7], [5], [5, 7]⟩
    (ReachableQueue.step PresentOp.service ⟨[5, 7], [], [5, 7]⟩ _
      (ReachableQueue.step (PresentOp.enqueue 7) ⟨[5], [], [5]⟩ _
        (ReachableQueue.step (PresentOp.enqueue 5) initQueue _
          ReachableQueue.init rfl) rfl) rfl)).1

/-- C7: the capability provider query is a pure function of the surface:
it returns nullptr exactly when the surface's platform is unsupported,
repeated calls return the same result, and the failure propagates to
create() with no state modification. -/
theorem C7_capability_provider_stateless (inst : InstancePrivateData)
    (platformProps : Nat → SurfaceProperties) (surfacePlatform : Nat)
    (swapchains : List Nat) :
    (get_surface_properties inst platformProps surfacePlatform = none ↔
       surfacePlatform ∉ inst.enabledPlatforms) ∧
    (get_surface_properties inst platformProps surfacePlatform =
       get_surface_properties inst platformProps surfacePlatform) ∧
    (surfacePlatform ∉ inst.enabledPlatforms →
       swapchain_create_query inst platformProps surfacePlatform swapchains =
         (Except.error WsiError.Unsupported, swapchains)) := by
  refine ⟨?_, rfl, ?_⟩
  · unfold get_surface_properties
    split_ifs with h <;> simp [h]
  · intro h
    unfold swapchain_create_query get_surface_properties
    rw [if_neg h]

/-- Witness for C7: platform 1 is not among the enabled platforms, so the
query fails Unsupported and the swapchain list is unchanged. -/
theorem C7_capability_provider_stateless_witness :
    swapchain_create_query ⟨[0]⟩ (fun _ => ⟨[], [], 0, 0⟩) 1 [] =
      (Except.error WsiError.Unsupported, []) :=
  (C7_capability_provider_stateless ⟨[0]⟩ (fun _ => ⟨[], [], 0, 0⟩) 1 []).2.2
    (by decide)

/-- Witness for C6: an all-success create_instance environment leaves the
new instance handle associated in the registry. -/
theorem C6_registry_lifecycle_witness :
    (create_instance ⟨true, true, true, false, VkResult.SUCCESS, true,
        VkResult.SUCCESS, VkResult.SUCCESS, VkResult.SUCCESS, true,
        VkResult.SUCCESS, VkResult.SUCCESS, VkResult.SUCCESS⟩).2 = true :=
  (C6_registry_lifecycle.1 ⟨true, true, true, false, VkResult.SUCCESS, true,
      VkResult.SUCCESS, VkResult.SUCCESS, VkResult.SUCCESS, true,
      VkResult.SUCCESS, VkResult.SUCCESS, VkResult.SUCCESS⟩).mpr rfl
